import Mathlib

/-!
Shallow embedding of `src/indi-flatpanel/indi_flatpanel.cpp` (the FlatPanel
INDI driver) and verification of its specification claims.

The driver's externally supplied pieces (the INDI base class, the serial
helpers `sendCommand` / `readResponse`, and the filesystem `glob`/`open`
calls) are modelled as explicit parameters: the outcome of a transport
write is a boolean argument, the bytes delivered by a read are a `String`
argument, and the set of openable device paths is a predicate argument.
Everything the driver itself computes is translated directly from the
source.
-/

namespace FlatPanel

/-- INDI switch state, as in the C `ISState` enum. -/
inductive ISState where
  | ISS_ON
  | ISS_OFF
deriving DecidableEq, Repr

open ISState

/-- The mutable driver state touched by the claims: `CoverOptions[0].s`,
`CoverOptions[1].s`, `BrightnessValue[0].value` and `StatusMessages[0].text`.
`BrightnessValue[0].value` is a C `double`, but every write in the source
stores an integer (`atoi` result or a clamped `int`), so it is modelled as
`Int`. -/
structure DeviceState where
  coverOpenSw : ISState
  coverCloseSw : ISState
  brightnessValue : Int
  statusText : String
deriving DecidableEq, Repr

/-- Initial property values set in `initProperties` (lines 68-69, 79, 86). -/
def initState : DeviceState :=
  { coverOpenSw := ISS_OFF
    coverCloseSw := ISS_OFF
    brightnessValue := 0
    statusText := "Disconnected" }

/-- Whether `pat` matches at the head of `hay` (the inner loop of `strstr`). -/
def headMatch : List Char → List Char → Bool
  | _, [] => true
  | [], _ :: _ => false
  | a :: hay, b :: pat => a = b && headMatch hay pat

/-- The outer loop of `strstr`: try a head match at every suffix of `hay`. -/
def strstrHit (hay pat : List Char) : Bool :=
  match hay with
  | [] => headMatch [] pat
  | _ :: t => headMatch hay pat || strstrHit t pat

/-- `strstr(haystack, needle) != NULL`: substring containment. -/
def strContains (s pat : String) : Bool :=
  strstrHit s.toList pat.toList

/-- Digit run accumulator for `atoi`: consumes leading decimal digits,
stopping at the first non-digit. -/
def digitsVal : List Char → Nat → Nat
  | [], acc => acc
  | c :: cs, acc =>
      if c.isDigit then digitsVal cs (acc * 10 + (c.toNat - ('0').toNat))
      else acc

/-- C `isspace` characters in the default locale. -/
def isSpaceChar (c : Char) : Bool :=
  c = ' ' || c = '\t' || c = '\n' || c = '\x0b' || c = '\x0c' || c = '\r'

/-- C `atoi`: skip leading whitespace, optional sign, then a best-effort
decimal parse that stops at the first non-digit; no digits yields 0.
(Overflow is not modelled; all values in this development are small.) -/
def atoi (s : String) : Int :=
  match s.toList.dropWhile isSpaceChar with
  | '-' :: cs => -(digitsVal cs 0 : Int)
  | '+' :: cs => (digitsVal cs 0 : Int)
  | cs => (digitsVal cs 0 : Int)

/-- Cover state enumeration of the spec data model. -/
inductive CoverState where
  | Unknown
  | Open
  | Closed
  | Moving
deriving DecidableEq, Repr

/-- Parsed status-line events of the spec data model. -/
inductive Event where
  | SetState (s : CoverState)
  | SetBrightness (n : Int)
deriving DecidableEq, Repr

/-- The response-pattern dispatch of `TimerHit` (lines 172-191), extracted
as the ResponseParser of the spec: the four `strstr` tests in source order
with first match winning, the brightness value read by `atoi(response + 11)`
(offset 11 from the start of the buffer; a buffer shorter than 11 characters
yields the empty-string parse 0). -/
def parse (line : String) : Option Event :=
  if strContains line "STATE OPEN" then some (Event.SetState CoverState.Open)
  else if strContains line "STATE CLOSED" then some (Event.SetState CoverState.Closed)
  else if strContains line "STATE MOVING" then some (Event.SetState CoverState.Moving)
  else if strContains line "BRIGHTNESS" then some (Event.SetBrightness (atoi (line.drop 11)))
  else none

/-- The state mutation each `TimerHit` branch performs: the OPEN/CLOSED
branches set both switches and the status text, the MOVING branch sets only
the status text, the BRIGHTNESS branch sets only the value (lines 172-191). -/
def applyEvent (st : DeviceState) : Event → DeviceState
  | Event.SetState CoverState.Open =>
      { st with coverOpenSw := ISS_ON, coverCloseSw := ISS_OFF, statusText := "Cover Open" }
  | Event.SetState CoverState.Closed =>
      { st with coverOpenSw := ISS_OFF, coverCloseSw := ISS_ON, statusText := "Cover Closed" }
  | Event.SetState CoverState.Moving =>
      { st with statusText := "Cover Moving..." }
  | Event.SetState CoverState.Unknown => st
  | Event.SetBrightness n =>
      { st with brightnessValue := n }

/-- Result of one `TimerHit` tick: the new state and whether the property
updates (`CoverControl.update()` etc., lines 193-195) were published. -/
structure TickResult where
  state : DeviceState
  published : Bool
deriving DecidableEq, Repr

/-- `TimerHit` (lines 164-199). `connected` is `isConnected()`; `readOk` is
the boolean returned by the externally defined `readResponse`, and
`response` is the buffer content it delivered. On a successful read the
buffer flows through the single if/else chain and the properties are
published; otherwise only the timer is rearmed. -/
def timerHit (connected readOk : Bool) (response : String) (st : DeviceState) : TickResult :=
  if !connected then { state := st, published := false }
  else if readOk then
    let st1 :=
      if strContains response "STATE OPEN" then
        { st with coverOpenSw := ISS_ON, coverCloseSw := ISS_OFF, statusText := "Cover Open" }
      else if strContains response "STATE CLOSED" then
        { st with coverOpenSw := ISS_OFF, coverCloseSw := ISS_ON, statusText := "Cover Closed" }
      else if strContains response "STATE MOVING" then
        { st with statusText := "Cover Moving..." }
      else if strContains response "BRIGHTNESS" then
        { st with brightnessValue := atoi (response.drop 11) }
      else st
    { state := st1, published := true }
  else { state := st, published := false }

/-- Modelled from the spec (the source keeps no separate CoverState field;
§3 derives StatusMessage from CoverState, so the enumeration is recovered
from the status text the branches write). -/
def coverStateOf (st : DeviceState) : CoverState :=
  if st.statusText = "Cover Open" then CoverState.Open
  else if st.statusText = "Cover Closed" then CoverState.Closed
  else if st.statusText = "Cover Moving..." then CoverState.Moving
  else CoverState.Unknown

/-- Split a character stream at newline separators (accumulator holds the
current line reversed). -/
def splitLinesAux : List Char → List Char → List (List Char)
  | [], acc => [acc.reverse]
  | c :: rest, acc =>
      if c = '\n' then acc.reverse :: splitLinesAux rest []
      else splitLinesAux rest (c :: acc)

/-- Modelled from the spec (§4.5 pipeline: the bytes of a tick split into
lines, each parsed into an event). Used to state what the spec expects a
tick to apply. -/
def parseEvents (buf : String) : List Event :=
  (splitLinesAux buf.toList []).filterMap (fun cs => parse (String.mk cs))

/-- `getDefaultName` / `setDeviceName` value (lines 49, 62). -/
def deviceName : String := "PrometheusAstro Flat Panel Cover"

/-- `CoverControl.name` set by `initSwitch` (line 71). -/
def coverControlName : String := "Cover Control"

/-- `BrightnessControl.name` set by `initNumber` (line 81). -/
def brightnessControlName : String := "Brightness Control"

/-- Result of a user command handler: the boolean the handler returns, the
commands handed to `sendCommand` in order, and the driver state afterwards. -/
structure CmdResult where
  handled : Bool
  sent : List String
  state : DeviceState
deriving DecidableEq, Repr

/-- `ISNewSwitch` (lines 201-222). `names` and `states` model the caller's
C arrays as total index functions; `baseResult` is the value returned by the
external `INDI::DefaultDevice::ISNewSwitch` fallthrough, which touches none
of the modelled state. The handler never copies `states` into
`CoverOptions`; it only sends a command and republishes. -/
def isNewSwitch (connected : Bool) (dev nm : String) (states : Nat → ISState)
    (names : Nat → String) (baseResult : Bool) (st : DeviceState) : CmdResult :=
  if !connected || dev ≠ deviceName then { handled := false, sent := [], state := st }
  else if nm = coverControlName then
    let sent :=
      if names 0 = "OPEN" ∧ states 0 = ISS_ON then ["OPEN"]
      else if names 0 = "CLOSE" ∧ states 1 = ISS_ON then ["CLOSE"]
      else []
    { handled := true, sent := sent, state := st }
  else { handled := baseResult, sent := [], state := st }

/-- The clamp in `ISNewNumber` (lines 231-233): `if (b < 0) b = 0;
if (b > 4095) b = 4095;`. -/
def clampBrightness (b : Int) : Int :=
  let b1 := if b < 0 then 0 else b
  if b1 > 4095 then 4095 else b1

/-- `ISNewNumber` (lines 224-245). `value0` is `static_cast<int>(values[0])`
(the claims use integer inputs, so the truncating cast is identity);
`writeOk` is the boolean returned by the externally defined `sendCommand`
— note the source discards it, so the function never inspects this
argument; `baseResult` is the external base-class fallthrough. The command
string is `snprintf("BRIGHTNESS %d", b)`, i.e. signed decimal with no
leading zeros. -/
def isNewNumber (connected : Bool) (dev nm : String) (value0 : Int)
    (writeOk baseResult : Bool) (st : DeviceState) : CmdResult :=
  if !connected || dev ≠ deviceName then { handled := false, sent := [], state := st }
  else if nm = brightnessControlName then
    let b := clampBrightness value0
    let command := "BRIGHTNESS " ++ toString b
    { handled := true
      sent := [command]
      state := { st with brightnessValue := b } }
  else { handled := baseResult, sent := [], state := st }

/-- `findArduinoPort` (lines 112-133), abstracted over the glob result
`candidates` and over which paths `open(path, O_RDWR | O_NOCTTY)` would
succeed on (`canOpen`). Returns the selected port (if any), the list of
candidates actually tried in order, and the list of file handles held open
when the function returns: a failed `open` yields no handle, and the loop
returns at the first success, so at most the selected handle exists. -/
def findArduinoPort (candidates : List String) (canOpen : String → Bool) :
    Option String × List String × List String :=
  match candidates with
  | [] => (none, [], [])
  | p :: rest =>
      if canOpen p then (some p, [p], [p])
      else
        let r := findArduinoPort rest canOpen
        (r.1, p :: r.2.1, r.2.2)

/-! ## Theorems -/

/-- Helper: the `ISNewNumber` clamp always lands in `[0, 4095]`. -/
theorem clampBrightness_range (b : Int) :
    0 ≤ clampBrightness b ∧ clampBrightness b ≤ 4095 := by
  unfold clampBrightness
  dsimp only
  split_ifs <;> omega

/-- Claim C1, counterexample: the hardware-reported path does not clamp.
A tick delivering the status line `BRIGHTNESS 9999` stores 9999 in
`BrightnessValue[0].value`, outside `[0, 4095]` (the source assigns
`atoi(response + 11)` with no range check, line 190). -/
theorem brightness_range_counterexample :
    ¬(0 ≤ (timerHit true true "BRIGHTNESS 9999" initState).state.brightnessValue ∧
      (timerHit true true "BRIGHTNESS 9999" initState).state.brightnessValue ≤ 4095) := by
  decide

/-- Claim C1, amended: a user-requested value applied via `ISNewNumber` is
always clamped into `[0, 4095]`, but a hardware-reported value applied from
a parsed `BRIGHTNESS` status line during a tick is stored exactly as
`atoi` parses it, with no clamping. -/
theorem brightness_range_by_source :
    (∀ (v : Int) (writeOk baseResult : Bool) (st : DeviceState),
      0 ≤ (isNewNumber true deviceName brightnessControlName v
            writeOk baseResult st).state.brightnessValue ∧
      (isNewNumber true deviceName brightnessControlName v
        writeOk baseResult st).state.brightnessValue ≤ 4095) ∧
    (∀ (line : String) (st : DeviceState),
      strContains line "STATE OPEN" = false → strContains line "STATE CLOSED" = false →
      strContains line "STATE MOVING" = false → strContains line "BRIGHTNESS" = true →
      (timerHit true true line st).state.brightnessValue = atoi (line.drop 11)) := by
  constructor
  · intro v writeOk baseResult st
    simpa [isNewNumber] using clampBrightness_range v
  · intro line st h1 h2 h3 h4
    simp [timerHit, h1, h2, h3, h4]

/-- Witness for `brightness_range_by_source` at user input 5000 and at the
hardware status line `BRIGHTNESS 9999`. -/
theorem brightness_range_by_source_witness :
    (0 ≤ (isNewNumber true deviceName brightnessControlName 5000
            true true initState).state.brightnessValue ∧
      (isNewNumber true deviceName brightnessControlName 5000
        true true initState).state.brightnessValue ≤ 4095) ∧
    (timerHit true true "BRIGHTNESS 9999" initState).state.brightnessValue =
      atoi ("BRIGHTNESS 9999".drop 11) :=
  ⟨brightness_range_by_source.1 5000 true true initState,
   brightness_range_by_source.2 "BRIGHTNESS 9999" initState
     (by decide) (by decide) (by decide) (by decide)⟩

/-- Claim C2, counterexample: with the transport write failing
(`writeOk = false`), a brightness-set of 5000 while connected still updates
the local value from 0 to 4095 — the source discards the result of
`sendCommand` (line 237) and assigns unconditionally (line 239). -/
theorem brightness_update_on_failed_write_counterexample :
    initState.brightnessValue = 0 ∧
    (isNewNumber true deviceName brightnessControlName 5000
      false true initState).state.brightnessValue = 4095 := by
  decide

/-- Claim C2, amended: the optimistic local brightness update is
unconditional — the handler's entire result is independent of whether the
transport write succeeded, and the stored value is always the clamped
request. -/
theorem brightness_update_ignores_write_result (v : Int)
    (writeOk writeOk2 baseResult : Bool) (st : DeviceState) :
    isNewNumber true deviceName brightnessControlName v writeOk baseResult st =
      isNewNumber true deviceName brightnessControlName v writeOk2 baseResult st ∧
    (isNewNumber true deviceName brightnessControlName v
      writeOk baseResult st).state.brightnessValue = clampBrightness v :=
  ⟨rfl, rfl⟩

/-- Claim C3: the response patterns are tested in the fixed source order
Open, Closed, Moving, Brightness with first match winning; in particular a
line containing `STATE OPEN` always parses to `SetState Open` and never to
a brightness event. -/
theorem parse_state_precedence (line : String) :
    (strContains line "STATE OPEN" = true →
      parse line = some (Event.SetState CoverState.Open)) ∧
    (strContains line "STATE OPEN" = false → strContains line "STATE CLOSED" = true →
      parse line = some (Event.SetState CoverState.Closed)) ∧
    (strContains line "STATE OPEN" = false → strContains line "STATE CLOSED" = false →
      strContains line "STATE MOVING" = true →
      parse line = some (Event.SetState CoverState.Moving)) ∧
    (strContains line "STATE OPEN" = false → strContains line "STATE CLOSED" = false →
      strContains line "STATE MOVING" = false → strContains line "BRIGHTNESS" = true →
      parse line = some (Event.SetBrightness (atoi (line.drop 11)))) ∧
    (∀ n : Int, strContains line "STATE OPEN" = true →
      parse line ≠ some (Event.SetBrightness n)) := by
  refine ⟨?_, ?_, ?_, ?_, ?_⟩
  · intro h; simp [parse, h]
  · intro h1 h2; simp [parse, h1, h2]
  · intro h1 h2 h3; simp [parse, h1, h2, h3]
  · intro h1 h2 h3 h4; simp [parse, h1, h2, h3, h4]
  · intro n h; simp [parse, h]

/-- Witness for `parse_state_precedence` on a line holding both
`STATE OPEN` and a later `BRIGHTNESS` token. -/
theorem parse_state_precedence_witness :
    parse "xx STATE OPEN yy BRIGHTNESS 9" = some (Event.SetState CoverState.Open) ∧
    parse "xx STATE OPEN yy BRIGHTNESS 9" ≠ some (Event.SetBrightness 9) :=
  ⟨(parse_state_precedence "xx STATE OPEN yy BRIGHTNESS 9").1 (by decide),
   (parse_state_precedence "xx STATE OPEN yy BRIGHTNESS 9").2.2.2.2 9 (by decide)⟩

/-- Claim C4: a line whose first matching pattern is `BRIGHTNESS` parses to
the `atoi` value of the text at the fixed offset 11 from the start of the
buffer (the position right after `BRIGHTNESS ` when the token leads the
line); `BRIGHTNESS 2048` gives 2048 and the non-numeric `BRIGHTNESS abc`
gives 0. -/
theorem parse_brightness_fixed_offset :
    (∀ line : String,
      strContains line "STATE OPEN" = false → strContains line "STATE CLOSED" = false →
      strContains line "STATE MOVING" = false → strContains line "BRIGHTNESS" = true →
      parse line = some (Event.SetBrightness (atoi (line.drop 11)))) ∧
    parse "BRIGHTNESS 2048" = some (Event.SetBrightness 2048) ∧
    parse "BRIGHTNESS abc" = some (Event.SetBrightness 0) := by
  refine ⟨?_, by decide, by decide⟩
  intro line h1 h2 h3 h4
  simp [parse, h1, h2, h3, h4]

/-- Witness for `parse_brightness_fixed_offset` at `BRIGHTNESS 2048`. -/
theorem parse_brightness_fixed_offset_witness :
    parse "BRIGHTNESS 2048" =
      some (Event.SetBrightness (atoi ("BRIGHTNESS 2048".drop 11))) :=
  parse_brightness_fixed_offset.1 "BRIGHTNESS 2048"
    (by decide) (by decide) (by decide) (by decide)

/-- Claim C5: every transmitted brightness command carries the clamped
value (`-50` encodes 0, `9000` encodes 4095), and a brightness-set of 5000
while connected transmits exactly `BRIGHTNESS 4095` and immediately stores
4095 locally. -/
theorem encode_brightness_clamped :
    (∀ (v : Int) (writeOk baseResult : Bool) (st : DeviceState),
      (isNewNumber true deviceName brightnessControlName v writeOk baseResult st).sent =
        ["BRIGHTNESS " ++ toString (clampBrightness v)]) ∧
    (∀ v : Int, 0 ≤ clampBrightness v ∧ clampBrightness v ≤ 4095) ∧
    (isNewNumber true deviceName brightnessControlName (-50) true true initState).sent =
      ["BRIGHTNESS 0"] ∧
    (isNewNumber true deviceName brightnessControlName 9000 true true initState).sent =
      ["BRIGHTNESS 4095"] ∧
    (∀ st : DeviceState,
      (isNewNumber true deviceName brightnessControlName 5000 true true st).sent =
        ["BRIGHTNESS 4095"] ∧
      (isNewNumber true deviceName brightnessControlName 5000
        true true st).state.brightnessValue = 4095) :=
  ⟨fun _ _ _ _ => rfl, fun v => clampBrightness_range v, rfl, rfl, fun _ => ⟨rfl, rfl⟩⟩

/-- Claim C6, counterexample: a tick whose buffer holds the two lines
`STATE OPEN` and `BRIGHTNESS 7` parses (per the spec pipeline) into two
events, yet the brightness is left untouched: only the first pattern
matching anywhere in the buffer is acted on, so the tick result differs
from applying every parsed event. -/
theorem tick_drops_later_events_counterexample :
    parseEvents "STATE OPEN\nBRIGHTNESS 7" =
      [Event.SetState CoverState.Open, Event.SetBrightness 7] ∧
    (timerHit true true "STATE OPEN\nBRIGHTNESS 7" initState).state.brightnessValue = 0 ∧
    (timerHit true true "STATE OPEN\nBRIGHTNESS 7" initState).state ≠
      (parseEvents "STATE OPEN\nBRIGHTNESS 7").foldl applyEvent initState := by
  decide

/-- Claim C6, amended: a connected tick with a successful read applies at
most one event — the whole buffer is matched against the patterns in fixed
order and only the first match's action is applied before the state is
published; a tick whose read fails publishes nothing and changes nothing. -/
theorem tick_applies_first_match_only (response : String) (st : DeviceState) :
    (timerHit true true response st).published = true ∧
    (timerHit true true response st).state = (parse response).elim st (applyEvent st) ∧
    timerHit true false response st = { state := st, published := false } := by
  refine ⟨rfl, ?_, rfl⟩
  simp only [timerHit, parse, Bool.not_true, Bool.false_eq_true, if_false]
  split_ifs <;> rfl

/-- Claim C7: a connected tick delivering `STATE MOVING\n` sets the status
text to the moving indicator, makes the derived cover state Moving, and
leaves the brightness untouched. -/
theorem tick_state_moving (st : DeviceState) :
    (timerHit true true "STATE MOVING\n" st).state.statusText = "Cover Moving..." ∧
    coverStateOf (timerHit true true "STATE MOVING\n" st).state = CoverState.Moving ∧
    (timerHit true true "STATE MOVING\n" st).state.brightnessValue = st.brightnessValue :=
  ⟨rfl, rfl, rfl⟩

/-- Claim C8: `findArduinoPort` returns the first candidate that opens,
tries exactly the candidates up to and including it, and holds open only
the selected handle; in the two-port scenario where only `/dev/ttyUSB1`
opens, that port is returned and `/dev/ttyUSB0` is never held open. -/
theorem find_port_first_openable :
    (∀ (cs : List String) (canOpen : String → Bool),
      (findArduinoPort cs canOpen).1 = cs.find? canOpen ∧
      (findArduinoPort cs canOpen).2.2 = ((findArduinoPort cs canOpen).1).toList ∧
      (findArduinoPort cs canOpen).2.1 =
        cs.takeWhile (fun p => !canOpen p) ++ (cs.find? canOpen).toList) ∧
    findArduinoPort ["/dev/ttyUSB0", "/dev/ttyUSB1"] (fun p => p = "/dev/ttyUSB1") =
      (some "/dev/ttyUSB1", ["/dev/ttyUSB0", "/dev/ttyUSB1"], ["/dev/ttyUSB1"]) ∧
    "/dev/ttyUSB0" ∉
      (findArduinoPort ["/dev/ttyUSB0", "/dev/ttyUSB1"] (fun p => p = "/dev/ttyUSB1")).2.2 := by
  refine ⟨?_, by decide, by decide⟩
  intro cs canOpen
  induction cs with
  | nil => simp [findArduinoPort, List.find?]
  | cons p rest ih =>
    by_cases h : canOpen p = true
    · simp [findArduinoPort, List.find?, List.takeWhile, h]
    · simp only [Bool.not_eq_true] at h
      simp [findArduinoPort, List.find?, List.takeWhile, h, ih]

/-- Claim C9: any switch or number write arriving while not connected is
rejected: the handler returns false, sends nothing, and leaves the state
untouched. -/
theorem disconnected_commands_rejected (dev nm : String) (states : Nat → ISState)
    (names : Nat → String) (v : Int) (writeOk baseResult : Bool) (st : DeviceState) :
    isNewSwitch false dev nm states names baseResult st =
      { handled := false, sent := [], state := st } ∧
    isNewNumber false dev nm v writeOk baseResult st =
      { handled := false, sent := [], state := st } :=
  ⟨rfl, rfl⟩

/-- Claim C10: in the CLOSE branch (`names[0] = "CLOSE"`), the CLOSE
command is sent iff `states[1]` is on, and the handler's whole result is
independent of `states[0]` — that entry is never examined there. -/
theorem close_branch_tests_second_state (states states2 : Nat → ISState)
    (names : Nat → String) (baseResult : Bool) (st : DeviceState)
    (hn : names 0 = "CLOSE") :
    ((isNewSwitch true deviceName coverControlName states names baseResult st).sent =
      if states 1 = ISS_ON then ["CLOSE"] else []) ∧
    (states2 1 = states 1 →
      isNewSwitch true deviceName coverControlName states2 names baseResult st =
        isNewSwitch true deviceName coverControlName states names baseResult st) := by
  constructor
  · simp [isNewSwitch, hn]
  · intro h2
    simp [isNewSwitch, hn, h2]

/-- Witness for `close_branch_tests_second_state` with every switch entry
on. -/
theorem close_branch_tests_second_state_witness :
    (isNewSwitch true deviceName coverControlName (fun _ => ISState.ISS_ON)
      (fun _ => "CLOSE") true initState).sent = ["CLOSE"] := by
  have h := close_branch_tests_second_state (fun _ => ISState.ISS_ON)
    (fun _ => ISState.ISS_ON) (fun _ => "CLOSE") true initState rfl
  simpa using h.1

end FlatPanel
